import Mathlib

/-!
Shallow embedding of `src/opal_scraper.py` (an Opal transit-card scraper).

Modelling conventions:
* Python strings are Lean `String`; `None`-able browser reads are `Option String`.
* Python truthiness of an optional string (`if x:`) is `isTruthy`.
* Python exceptions in a parse are `Option`/`none` results.
* `datetime` instants are minutes since the Unix epoch (the code zeroes
  `second` and `microsecond` on the only constructed datetime, so minute
  granularity is exact for it; the "current instant" fallback is likewise
  modelled at minute granularity).
* `float(...)` on the cleaned numeric strings of this program is modelled by
  `pyFloat?`, an exact rational parse of plain decimal literals (sign,
  digits, optional fraction part); exponent and inf/nan literals, which the
  scraped balance/amount texts never take, are out of the modelled subset,
  as are non-ASCII digits in `str.isdigit`/`int`.
* String primitives are re-implemented by structural recursion over
  `List Char` so that every definition evaluates inside the kernel; all the
  `str.replace` calls in the source replace a single character by the empty
  string, which is `removeChar`.
-/

namespace Opal

/-- Python truthiness of an optional string: `None` and `""` are falsy. -/
def isTruthy : Option String → Bool
  | none => false
  | some s => s ≠ ""

/-- Drop leading and trailing whitespace from a character list. -/
def trimChars (l : List Char) : List Char :=
  ((l.dropWhile Char.isWhitespace).reverse.dropWhile Char.isWhitespace).reverse

/-- Python `str.strip()` (ASCII whitespace). -/
def pyStrip (s : String) : String := String.mk (trimChars s.toList)

/-- Python `s.replace(c, "")` for a one-character pattern: remove every occurrence. -/
def removeChar (c : Char) (s : String) : String :=
  String.mk (s.toList.filter (fun x => x ≠ c))

/-- Split a character list at every occurrence of `c`, keeping empty pieces
(Python `str.split(sep)` with an explicit separator). -/
def splitCharList (c : Char) : List Char → List (List Char)
  | [] => [[]]
  | x :: xs =>
    match splitCharList c xs with
    | [] => [[]]
    | g :: gs => if x = c then [] :: g :: gs else (x :: g) :: gs

/-- Python `s.split(c)` for a one-character separator. -/
def splitOnChar (c : Char) (s : String) : List String :=
  (splitCharList c s.toList).map String.mk

/-- Python `str.lower()` (ASCII case folding). -/
def lowerStr (s : String) : String := String.mk (s.toList.map Char.toLower)

/-- Whether `pat` occurs at the head of `l`. -/
def headMatches : List Char → List Char → Bool
  | [], _ => true
  | _ :: _, [] => false
  | p :: ps, x :: xs => p = x && headMatches ps xs

/-- Whether `pat` occurs contiguously anywhere in `l`. -/
def listHasInfix (pat : List Char) : List Char → Bool
  | [] => pat.isEmpty
  | x :: xs => headMatches pat (x :: xs) || listHasInfix pat xs

/-- Python substring test `needle in hay`. -/
def substrOf (needle hay : String) : Bool := listHasInfix needle.toList hay.toList

/-- Python character-membership test `c in s` (one-character needle). -/
def containsChar (c : Char) (s : String) : Bool := s.toList.contains c

/-- Numeric value of a digit list (most significant first). -/
def digitsToNat (l : List Char) : Nat := l.foldl (fun a c => a * 10 + (c.toNat - 48)) 0

/-- Python `str.isdigit()` on ASCII text: nonempty and all digits. -/
def isDigitStr (s : String) : Bool := s.toList ≠ [] && s.toList.all Char.isDigit

/-- Parse a nonempty all-digit character list. -/
def digitsOnly? (l : List Char) : Option Nat :=
  if l ≠ [] ∧ l.all Char.isDigit then some (digitsToNat l) else none

/-- Python `int(s)`: strip whitespace, optional sign, digits; `none` models
`ValueError`. -/
def pyInt? (s : String) : Option Int :=
  match (pyStrip s).toList with
  | '-' :: rest => (digitsOnly? rest).map (fun n => -(n : Int))
  | '+' :: rest => (digitsOnly? rest).map (fun n => (n : Int))
  | rest => (digitsOnly? rest).map (fun n => (n : Int))

/-- Unsigned decimal literal: `digits`, `digits.digits`, `.digits` or `digits.`. -/
def pyFloatCore (l : List Char) : Option ℚ :=
  match splitCharList '.' l with
  | [ip] =>
    if ip ≠ [] ∧ ip.all Char.isDigit then some (mkRat (digitsToNat ip) 1) else none
  | [ip, fp] =>
    if ip.all Char.isDigit ∧ fp.all Char.isDigit ∧ (ip ≠ [] ∨ fp ≠ []) then
      some (mkRat (digitsToNat ip * 10 ^ fp.length + digitsToNat fp) (10 ^ fp.length))
    else none
  | _ => none

/-- Python `float(s)` on the plain decimal literals this program feeds it;
`none` models `ValueError`. -/
def pyFloat? (s : String) : Option ℚ :=
  match (pyStrip s).toList with
  | '-' :: rest => (pyFloatCore rest).map (fun q => -q)
  | '+' :: rest => pyFloatCore rest
  | rest => pyFloatCore rest

/-!
Time model.  A Python aware `datetime` truncated to minute precision:
`instant` is minutes since the Unix epoch (a point in absolute time) and
`offset` is the `tzinfo` UTC offset in minutes.  The wall clock the datetime
displays is `instant + offset` minutes since the epoch of its own calendar.
-/

/-- An aware datetime at minute granularity. -/
structure AwareDT where
  instant : Int
  offset : Int
deriving DecidableEq, Repr

/-- Wall-clock minutes since epoch as displayed by this datetime. -/
def AwareDT.wall (d : AwareDT) : Int := d.instant + d.offset

/-- Displayed hour of day (0..23). -/
def AwareDT.hour (d : AwareDT) : Int := (d.wall % 1440) / 60

/-- Displayed minute of hour (0..59). -/
def AwareDT.minute (d : AwareDT) : Int := d.wall % 60

/-- Displayed day number (days since epoch of the wall clock). -/
def AwareDT.day (d : AwareDT) : Int := d.wall / 1440

/-- Python `dt.replace(hour := h, minute := m, second := 0, microsecond := 0)`:
keep the wall-clock date and offset, set the time of day. -/
def AwareDT.replaceTime (d : AwareDT) (h m : Int) : AwareDT :=
  { instant := (d.wall / 1440) * 1440 + h * 60 + m - d.offset
    offset := d.offset }

/-- Civil date (year, month, day) of a day count since 1970-01-01
(proleptic Gregorian calendar). -/
def civilFromDays (z : Int) : Int × Int × Int :=
  let z' := z + 719468
  let era := z' / 146097
  let doe := z' - era * 146097
  let yoe := (doe - doe / 1460 + doe / 36524 - doe / 146096) / 365
  let y := yoe + era * 400
  let doy := doe - (365 * yoe + yoe / 4 - yoe / 100)
  let mp := (5 * doy + 2) / 153
  let d := doy - (153 * mp + 2) / 5 + 1
  let m := mp + (if mp < 10 then 3 else -9)
  (y + (if m ≤ 2 then 1 else 0), m, d)

/-- Two-digit zero padding of a small nonnegative integer. -/
def pad2 (n : Int) : String := if n < 10 then "0" ++ toString n else toString n

/-- Python `datetime.isoformat()` for a minute-granular aware datetime
(seconds rendered as `:00`, zero microseconds omitted, offset as `±HH:MM`). -/
def isoformat (d : AwareDT) : String :=
  let mins := d.wall % 1440
  let ymd := civilFromDays d.day
  let offAbs := if d.offset < 0 then -d.offset else d.offset
  let sign := if d.offset < 0 then "-" else "+"
  toString ymd.1 ++ "-" ++ pad2 ymd.2.1 ++ "-" ++ pad2 ymd.2.2 ++ "T" ++
    pad2 (mins / 60) ++ ":" ++ pad2 (mins % 60) ++ ":00" ++
    sign ++ pad2 (offAbs / 60) ++ ":" ++ pad2 (offAbs % 60)

/-- The `try` body of `to_utc_and_local` up to the `replace` call:
`hh, mm = time_text.split(":")` then `int(hh)`, `int(mm)`; `none` is the
exception path (wrong number of `:`-parts, a non-integer part, or a field
value `replace` rejects). -/
def timeParse? (time_text : String) : Option (Int × Int) :=
  match splitOnChar ':' time_text with
  | [hs, ms] =>
    match pyInt? hs, pyInt? ms with
    | some h, some m =>
      if 0 ≤ h ∧ h ≤ 23 ∧ 0 ≤ m ∧ m ≤ 59 then some (h, m) else none
    | _, _ => none
  | _ => none

/-- Datetime-level body of `to_utc_and_local` (source lines 25-37): interpret
`HH:MM` as today's wall clock at fixed offset UTC+11 (660 minutes), derive the
UTC equivalent; on any parse failure return the current UTC instant twice.
`now` is the current instant in minutes since the epoch. -/
def toUtcAndLocalDT (time_text : String) (now : Int) : AwareDT × AwareDT :=
  match timeParse? time_text with
  | some (h, m) =>
    let local_time := AwareDT.replaceTime { instant := now, offset := 660 } h m
    (local_time, { instant := local_time.instant, offset := 0 })
  | none => ({ instant := now, offset := 0 }, { instant := now, offset := 0 })

/-- Source `to_utc_and_local`: the ISO renderings of the two datetimes. -/
def to_utc_and_local (time_text : String) (now : Int) : String × String :=
  let p := toUtcAndLocalDT time_text now
  (isoformat p.1, isoformat p.2)

/-!
Trip extraction (source `extract_trip_items`, lines 86-149).  A `Row` is one
`.card-activity-item` DOM row as the environment presents it: the inner texts
of its `.date`, `.from`, `.to` and amount sub-elements (absent element =
`none`), and the `iconname` attribute of its icon (absent element, absent
attribute and an exception during the icon lookup all collapse to `none`,
exactly as the source collapses them to an unset/empty name).
-/

/-- One scraped trip-history DOM row. -/
structure Row where
  timeEl : Option String
  fromEl : Option String
  toEl : Option String
  amountSpan : Option String
  amountPlain : Option String
  icon : Option String
deriving DecidableEq, Repr

/-- Source line 103: `query_selector(".amount span") or query_selector(".amount")`. -/
def amountEl (r : Row) : Option String :=
  match r.amountSpan with
  | some a => some a
  | none => r.amountPlain

/-- The cleaned amount text (source line 112): drop `$`, `,`, `-`, then strip. -/
def cleanAmount (s : String) : String :=
  pyStrip (removeChar '-' (removeChar ',' (removeChar '$' s)))

/-- Amount parsing (source lines 112-115) applied to the stripped inner text
of the amount element: `float` of the cleaned text (0.0 when it is empty),
negated when the original text contains `-`; `none` models the `ValueError`
of `float` on a nonempty non-numeric cleaned text, which the per-row handler
turns into a dropped row. -/
def parseAmount (amount_text : String) : Option ℚ :=
  let clean := cleanAmount amount_text
  let amt? := if clean = "" then some 0 else pyFloat? clean
  amt?.map (fun amt => if containsChar '-' amount_text then -amt else amt)

/-- Trip-type classification (source lines 117-133): lower-case the `iconname`
attribute (or `""` when absent) and test substrings in fixed order. -/
def classifyTripType (icon : Option String) : String :=
  let name := lowerStr (icon.getD "")
  if substrOf "train" name then "Train"
  else if substrOf "metro" name then "Metro"
  else if substrOf "bus" name then "Bus"
  else if substrOf "ferry" name then "Ferry"
  else if substrOf "light" name || substrOf "rail" name then "Light Rail"
  else "Unknown"

/-- One normalized transaction record (the dict built at source lines 136-146).
Time fields hold the ISO strings produced by `to_utc_and_local`; `card_id` is
optional because the zero-thumb path can pass `None` as the card name. -/
structure TripRecord where
  time_local : String
  time_utc : String
  amount : ℚ
  currency : String
  description : String
  card_id : Option String
  trip_type : String
  tap_on_location : String
  tap_off_location : String
deriving DecidableEq, Repr

/-- The per-row body of `extract_trip_items` (source lines 98-148): skip the
row when any of the four required elements is missing or when the amount text
raises in `float`; otherwise build the record. -/
def parseRow (card_name : Option String) (now : Int) (r : Row) : Option TripRecord :=
  match r.timeEl, r.fromEl, r.toEl, amountEl r with
  | some t, some f, some to_, some a =>
    let time_text := pyStrip t
    let from_loc := pyStrip f
    let to_loc := pyStrip to_
    let amount_text := pyStrip a
    match parseAmount amount_text with
    | none => none
    | some amt =>
      let trip_type := classifyTripType r.icon
      let times := to_utc_and_local time_text now
      some
        { time_local := times.1
          time_utc := times.2
          amount := amt
          currency := "AUD"
          description := from_loc ++ " → " ++ to_loc ++ " (" ++ trip_type ++ ")"
          card_id := card_name
          trip_type := trip_type
          tap_on_location := from_loc
          tap_off_location := to_loc }
  | _, _, _, _ => none

/-- Source `extract_trip_items`: `none` rows model the 15 s selector timeout
(zero trips for the card); otherwise each row is parsed and failures are
dropped. -/
def extract_trip_items (card_name : Option String) (now : Int)
    (rows : Option (List Row)) : List TripRecord :=
  match rows with
  | none => []
  | some rs => rs.filterMap (parseRow card_name now)

/-- Whether one row parses successfully (name- and clock-independent). -/
def rowParses (r : Row) : Bool :=
  match r.timeEl, r.fromEl, r.toEl, amountEl r with
  | some _, some _, some _, some a => (parseAmount (pyStrip a)).isSome
  | _, _, _, _ => false

/-!
Card-info parsing and card-name resolution (source lines 40-83 and 229-257).
Browser reads are inputs: `get_first_visible_text` returns `Option String`
values supplied by the environment.
-/

/-- Python `s.startswith(c)` for a one-character pattern. -/
def startsWithChar (c : Char) (s : String) : Bool :=
  match s.toList with
  | x :: _ => x = c
  | [] => false

/-- The `is_amount` test inside `parse_card_info_from_text` (source lines 79-80). -/
def isAmountLine (line : String) : Bool :=
  isDigitStr (removeChar ' ' (removeChar '-' (removeChar '.' line))) ||
    (isDigitStr (removeChar ' ' (removeChar '-' (removeChar '.' (removeChar '$' line)))) &&
      containsChar '.' line)

/-- One iteration of the line loop of `parse_card_info_from_text`: a line
starting with `$` overwrites the balance, otherwise a short non-amount line
overwrites the card name. -/
def cardInfoStep (st : Option String × Option String) (line : String) :
    Option String × Option String :=
  if startsWithChar '$' line then (st.1, some line)
  else if !isAmountLine line ∧ line ≠ "" ∧ 0 < line.toList.length ∧ line.toList.length < 50 then
    (some line, st.2)
  else st

/-- Source `parse_card_info_from_text`: scan the stripped nonempty lines of a
sibling text for a card name and a `$`-prefixed balance. -/
def parse_card_info_from_text (text : String) : Option String × Option String :=
  let lines := (((splitOnChar '\n' text).map pyStrip).filter (fun l => l ≠ ""))
  let st := lines.foldl cardInfoStep (none, none)
  (match st.1 with
   | some c => if c ≠ "" then some (pyStrip c) else none
   | none => none,
   st.2)

/-- Source `wait_for_value_change`: `polls` are the values read during the
bounded wait loop, `finalRead` the read after the loop times out.  The first
truthy polled value different from `previous_value` is returned, else the
final read. -/
def wait_for_value_change (polls : List (Option String)) (finalRead : Option String)
    (previous_value : String) : Option String :=
  match polls.find? (fun v => isTruthy v && v ≠ some previous_value) with
  | some v => v
  | none => finalRead

/-- Environment data for one `.opal-selector__card` thumb in the multi-card
loop: the sibling text (absent models both a missing sibling and an exception
while reading it), the `.opal-selector__card-name` reads during and after the
bounded wait, the one-shot name read used when there is no previous name, the
`.opal-selector__card-value` read, the trip rows (`none` models the
trip-list-selector timeout), and whether an exception interrupts this card's
processing at the click (the tier-2 `except` of source line 279). -/
structure CardData where
  siblingText : Option String
  polls : List (Option String)
  finalRead : Option String
  directRead : Option String
  valueRead : Option String
  rows : Option (List Row)
  fails : Bool
deriving DecidableEq, Repr

/-- Sibling parse of a thumb (source lines 236-243): run
`parse_card_info_from_text` only when the sibling text is truthy. -/
def siblingParse (c : CardData) : Option String × Option String :=
  match c.siblingText with
  | some t => if t ≠ "" then parse_card_info_from_text t else (none, none)
  | none => (none, none)

/-- Card-name resolution for thumb number `idx` (1-based), source lines
248-256: sibling-parsed name if truthy; else the bounded-wait read (or the
one-shot read when there is no previous name); else `Card_<idx>`. -/
def resolveCardName (c : CardData) (prev_name : String) (idx : Nat) : String :=
  let fromThumb := (siblingParse c).1
  if isTruthy fromThumb then fromThumb.getD ""
  else
    let card_name :=
      if prev_name ≠ "" then wait_for_value_change c.polls c.finalRead prev_name
      else c.directRead
    if isTruthy card_name then card_name.getD "" else "Card_" ++ toString idx

/-!
Balances and the scrape pipeline (source `scrape_opal`, lines 152-304).
-/

/-- One element of `balance_list` (source lines 225 and 274). -/
structure BalanceEntry where
  card_id : Option String
  balance : ℚ
  currency : String
deriving DecidableEq, Repr

/-- The JSON value written to `balance.json` (source lines 288-300): a flat
single-card object or a `cards` object, chosen by the number of captured
balances. -/
inductive BalanceJson where
  | flat (balance : Option ℚ) (currency : String) (card_id : Option String)
      (last_updated : Int)
  | multi (cards : List BalanceEntry) (last_updated : Int)
deriving DecidableEq, Repr

/-- Source lines 288-300: collapse the captured balances to the output shape.
`now` is the `datetime.now()` instant used for `last_updated`. -/
def makeBalanceJson (balance_list : List BalanceEntry) (now : Int) : BalanceJson :=
  if balance_list.length ≤ 1 then
    BalanceJson.flat (balance_list.head?.map BalanceEntry.balance) "AUD"
      (balance_list.head?.bind BalanceEntry.card_id) now
  else
    BalanceJson.multi balance_list now

/-- Balance-text cleaning (source lines 219 and 266): drop `$` and `,`, strip.
Unlike the amount path, an empty or non-numeric cleaned text leaves the
balance unset (the `try` around `float` swallows the error). -/
def balanceFromText (balance_text : Option String) : Option ℚ :=
  if isTruthy balance_text then
    pyFloat? (pyStrip (removeChar ',' (removeChar '$' (balance_text.getD ""))))
  else none

/-- Balance captured for one thumb (source lines 259-274): the sibling-parsed
`$` line if truthy, else the `.opal-selector__card-value` read; appended to
`balance_list` only when `float` succeeds. -/
def cardBalanceEntry (c : CardData) (card_name : String) : Option BalanceEntry :=
  let fromThumb := (siblingParse c).2
  let balance_text := if isTruthy fromThumb then fromThumb else c.valueRead
  (balanceFromText balance_text).map
    (fun bal => { card_id := some card_name, balance := bal, currency := "AUD" })

/-- The multi-card loop (source lines 229-281), carrying `prev_name` and the
1-based index: a failing thumb is skipped (warning, `continue`), otherwise its
name is resolved, its balance captured and its trips extracted. -/
def multiScan (now : Int) : List CardData → String → Nat →
    List TripRecord × List BalanceEntry
  | [], _, _ => ([], [])
  | c :: rest, prev_name, idx =>
    if c.fails then multiScan now rest prev_name (idx + 1)
    else
      let card_name := resolveCardName c prev_name idx
      let tail := multiScan now rest card_name (idx + 1)
      let trips := extract_trip_items (some card_name) now c.rows
      match cardBalanceEntry c card_name with
      | some b => (trips ++ tail.1, b :: tail.2)
      | none => (trips ++ tail.1, tail.2)

/-- Environment data for the zero-thumb path (source lines 214-227). -/
structure SoloData where
  nameRead : Option String
  valueRead : Option String
  rows : Option (List Row)
deriving DecidableEq, Repr

/-- Environment of one `scrape_opal` run: what the portal page presents at
each browser read.  `loginFormPresent`: the `#usernameCrtl`/`#passwordCtrl`
selectors appear within their timeout; `cardSelectorAppears`: the post-login
`.opal-selector__card-name` selector appears; `stillLoginVisible` and
`loginErrorMsg`: the credential-rejection probes of source lines 184-192;
`thumbs`: the `.opal-selector__card` elements; `solo`: the reads of the
zero-thumb path. -/
structure ScrapeEnv where
  loginFormPresent : Bool
  cardSelectorAppears : Bool
  stillLoginVisible : Bool
  loginErrorMsg : Option String
  thumbs : List CardData
  solo : SoloData
deriving DecidableEq, Repr

/-- The zero-thumb path (source lines 214-227). -/
def soloScan (env : ScrapeEnv) (now : Int) : List TripRecord × List BalanceEntry :=
  let balance_list :=
    match balanceFromText env.solo.valueRead with
    | some bal => [{ card_id := env.solo.nameRead, balance := bal, currency := "AUD" }]
    | none => []
  (extract_trip_items env.solo.nameRead now env.solo.rows, balance_list)

/-- Transactions and balances accumulated by a run that got past login
(source lines 211-281). -/
def gather (env : ScrapeEnv) (now : Int) : List TripRecord × List BalanceEntry :=
  match env.thumbs with
  | [] => soloScan env now
  | ts => multiScan now ts "" 1

/-- Outcome of a `scrape_opal` run: the two output files (`none` = the run
returned before writing them), whether the browser was closed, and the log
lines.  In-loop per-card info/warning lines and the per-card exception texts
are not modelled (no claim depends on them); the pre-loop and final lines are.
-/
structure ScrapeResult where
  transactionsFile : Option (List TripRecord)
  balanceFile : Option BalanceJson
  browserClosed : Bool
  logs : List String
deriving DecidableEq, Repr

/-- Source `scrape_opal` (lines 152-304): the three fatal login paths return
with no files written; otherwise the cards are scanned and both files are
written once, at the end. -/
def scrape_opal (env : ScrapeEnv) (now : Int) : ScrapeResult :=
  let logs0 := ["Opening login page..."]
  if !env.loginFormPresent then
    { transactionsFile := none, balanceFile := none, browserClosed := true
      logs := logs0 ++ ["Login form not found."] }
  else
    let logs1 := logs0 ++ ["Filling login form...", "Waiting for login to finish..."]
    if env.cardSelectorAppears then
      let pair := gather env now
      { transactionsFile := some pair.1
        balanceFile := some (makeBalanceJson pair.2 now)
        browserClosed := true
        logs := logs1 ++ ["Login successful.",
          "Detected " ++ toString env.thumbs.length ++ " card(s).",
          "Saved " ++ toString pair.1.length ++ " transactions.",
          "Saved balances to balance.json"] }
    else if env.stillLoginVisible || isTruthy env.loginErrorMsg then
      let msg :=
        if isTruthy env.loginErrorMsg then env.loginErrorMsg.getD ""
        else "Please check your username or password."
      { transactionsFile := none, balanceFile := none, browserClosed := true
        logs := logs1 ++ ["Login failed. " ++ msg] }
    else
      { transactionsFile := none, balanceFile := none, browserClosed := true
        logs := logs1 ++ ["Login timeout or unexpected page state."] }

/-!
Demo mode and entry point (source lines 308-360).
-/

/-- The two fixed demo trips (source lines 310-333). -/
def demoTransactions : List TripRecord :=
  [{ time_local := "2025-11-05T10:47:00+11:00"
     time_utc := "2025-11-04T23:47:00Z"
     amount := mkRat (-2226) 100
     currency := "AUD"
     description := "International → Rhodes (Train)"
     card_id := some "Jack"
     trip_type := "Train"
     tap_on_location := "International"
     tap_off_location := "Rhodes" },
   { time_local := "2025-11-05T09:15:00+11:00"
     time_utc := "2025-11-04T22:15:00Z"
     amount := mkRat (-320) 100
     currency := "AUD"
     description := "Rhodes → Meadowbank (Bus)"
     card_id := some "Work Card"
     trip_type := "Bus"
     tap_on_location := "Rhodes"
     tap_off_location := "Meadowbank" }]

/-- The two fixed demo card balances (source lines 334-340). -/
def demoBalances : List BalanceEntry :=
  [{ card_id := some "Jack", balance := mkRat 97 10, currency := "AUD" },
   { card_id := some "Work Card", balance := mkRat 205 10, currency := "AUD" }]

/-- Outcome of one program invocation: the files written and whether any
network interaction (the browser session of `scrape_opal`) happened. -/
structure RunResult where
  transactionsFile : Option (List TripRecord)
  balanceFile : Option BalanceJson
  networkUsed : Bool
deriving DecidableEq, Repr

/-- Source `run_demo` (lines 308-347): write the fixed data, touch no browser. -/
def run_demo (now : Int) : RunResult :=
  { transactionsFile := some demoTransactions
    balanceFile := some (BalanceJson.multi demoBalances now)
    networkUsed := false }

/-- Source `main` (lines 350-360): the demo flag selects `run_demo`, otherwise
`scrape_opal` drives a browser session. -/
def main (demoFlag : Bool) (env : ScrapeEnv) (now : Int) : RunResult :=
  if demoFlag then run_demo now
  else
    let r := scrape_opal env now
    { transactionsFile := r.transactionsFile
      balanceFile := r.balanceFile
      networkUsed := true }

/-!
Derived counting notions and concrete data used by the verification.
-/

/-- Number of rows of a card's trip list that parse successfully (0 when the
trip-list selector timed out). -/
def countParsedRows : Option (List Row) → Nat
  | none => 0
  | some rs => rs.countP rowParses

/-- The number of successfully parsed rows summed over all visited cards: a
thumb whose processing failed contributes nothing. -/
def expectedParsedCount (env : ScrapeEnv) : Nat :=
  match env.thumbs with
  | [] => countParsedRows env.solo.rows
  | ts => (ts.map (fun c => if c.fails then 0 else countParsedRows c.rows)).sum

/-- A thumb whose sibling text is absent and whose displayed card name stays
`Jack` (the previous card's name) for the whole bounded wait. -/
def c1Thumb : CardData :=
  { siblingText := none, polls := [some "Jack", some "Jack"], finalRead := some "Jack"
    directRead := none, valueRead := none, rows := some [], fails := false }

/-- A well-formed trip row used as a concrete witness input. -/
def rowW : Row :=
  { timeEl := some "09:15", fromEl := some "A", toEl := some "B"
    amountSpan := some "-$3.20", amountPlain := none, icon := some "bus" }

/-- The record `parseRow` produces from `rowW` at instant 0. -/
def tripW : TripRecord :=
  { time_local := "1970-01-01T09:15:00+11:00"
    time_utc := "1969-12-31T22:15:00+00:00"
    amount := mkRat (-16) 5
    currency := "AUD"
    description := "A → B (Bus)"
    card_id := some "X"
    trip_type := "Bus"
    tap_on_location := "A"
    tap_off_location := "B" }

/-- Modelled from the claim's words, not from the source: trip-type
classification that matches the literal substrings train/metro/bus/ferry/
light-rail in that fixed order, first match winning. -/
def classifyTripTypeClaim (icon : Option String) : String :=
  let name := lowerStr (icon.getD "")
  if substrOf "train" name then "Train"
  else if substrOf "metro" name then "Metro"
  else if substrOf "bus" name then "Bus"
  else if substrOf "ferry" name then "Ferry"
  else if substrOf "light-rail" name then "Light Rail"
  else "Unknown"

/-- The ordered substring table of the amended trip-type claim. -/
def tripPatterns : List (String × String) :=
  [("train", "Train"), ("metro", "Metro"), ("bus", "Bus"), ("ferry", "Ferry")]

/-- Modelled from the amended claim's words: ordered first-match substring
classification where the last step accepts either `light` or `rail`. -/
def classifyTripTypeAmended (icon : Option String) : String :=
  let name := lowerStr (icon.getD "")
  match tripPatterns.find? (fun p => substrOf p.1 name) with
  | some p => p.2
  | none =>
    if substrOf "light" name || substrOf "rail" name then "Light Rail" else "Unknown"

/-!
Helper lemmas (shared, not claim-specific).
-/

theorem aux_length_filterMap {α β : Type} (f : α → Option β) (l : List α) :
    (l.filterMap f).length = l.countP (fun a => (f a).isSome) := by
  induction l with
  | nil => simp
  | cons x xs ih =>
    cases h : f x <;> simp [List.filterMap_cons, h, List.countP_cons, ih]

theorem aux_parseRow_isSome (nm : Option String) (now : Int) (r : Row) :
    (parseRow nm now r).isSome = rowParses r := by
  unfold parseRow rowParses
  cases ht : r.timeEl <;> cases hf : r.fromEl <;> cases hto : r.toEl <;>
    cases ha : amountEl r <;> simp
  cases hp : parseAmount (pyStrip _) <;> simp [hp]

theorem aux_extract_length (nm : Option String) (now : Int) (rows : Option (List Row)) :
    (extract_trip_items nm now rows).length = countParsedRows rows := by
  cases rows with
  | none => rfl
  | some rs =>
    simp only [extract_trip_items, countParsedRows, aux_length_filterMap]
    congr 1
    funext r
    exact aux_parseRow_isSome nm now r

theorem aux_multiScan_length (now : Int) (cs : List CardData) :
    ∀ prev idx, (multiScan now cs prev idx).1.length =
      (cs.map (fun c => if c.fails then 0 else countParsedRows c.rows)).sum := by
  induction cs with
  | nil => intro prev idx; simp [multiScan]
  | cons c rest ih =>
    intro prev idx
    by_cases hc : c.fails
    · simp [multiScan, hc, ih]
    · cases hb : cardBalanceEntry c (resolveCardName c prev idx) <;>
        simp [multiScan, hc, hb, ih, aux_extract_length]

/-!
Claim theorems.
-/

/-- C1 counterexample: for a thumb with no parseable sibling text whose
displayed card name stays at the previous card's name `Jack` through every
poll and through the final read of the bounded wait, the multi-card loop
labels the card `Jack` (the unchanged display text), not `Card_2` as the
claim states. -/
theorem c1_counterexample :
    (siblingParse c1Thumb).1 = none ∧
    c1Thumb.polls = [some "Jack", some "Jack"] ∧
    c1Thumb.finalRead = some "Jack" ∧
    resolveCardName c1Thumb "Jack" 2 = "Jack" ∧
    ¬ resolveCardName c1Thumb "Jack" 2 = "Card_2" := by
  decide

/-- C1 amended: in the multi-card loop, when sibling-text parsing yields no
card name and no poll of the bounded wait returns a truthy value different
from the previous card's (nonempty) name, the card is labeled `Card_<idx>`
exactly when the read taken after the wait is absent or empty; when that
final read still shows the previous card's name, the card is labeled with the
previous card's name instead. -/
theorem c1_theorem :
    (∀ (c : CardData) (prev : String) (idx : Nat),
      isTruthy (siblingParse c).1 = false → prev ≠ "" →
      (∀ v ∈ c.polls, (isTruthy v && v ≠ some prev) = false) →
      isTruthy c.finalRead = false →
      resolveCardName c prev idx = "Card_" ++ toString idx) ∧
    (∀ (c : CardData) (prev : String) (idx : Nat),
      isTruthy (siblingParse c).1 = false → prev ≠ "" →
      (∀ v ∈ c.polls, (isTruthy v && v ≠ some prev) = false) →
      c.finalRead = some prev →
      resolveCardName c prev idx = prev) := by
  have hwait : ∀ (c : CardData) (prev : String),
      (∀ v ∈ c.polls, (isTruthy v && v ≠ some prev) = false) →
      wait_for_value_change c.polls c.finalRead prev = c.finalRead := by
    intro c prev hp
    unfold wait_for_value_change
    have hfind : c.polls.find? (fun v => isTruthy v && v ≠ some prev) = none := by
      rw [List.find?_eq_none]
      intro v hv hpred
      have hpred' : (isTruthy v && v ≠ some prev) = true := hpred
      rw [hp v hv] at hpred'
      exact Bool.false_ne_true hpred'
    rw [hfind]
  constructor
  · intro c prev idx hsib hprev hp hfin
    simp [resolveCardName, hsib, hprev, hwait c prev hp, hfin]
  · intro c prev idx hsib hprev hp hfin
    have hw := hwait c prev hp
    rw [hfin] at hw
    have htp : isTruthy (some prev) = true := by simp [isTruthy, hprev]
    simp [resolveCardName, hsib, hprev, hfin, hw, htp]

/-- C1 witness: concrete applications of both halves of the amended claim. -/
theorem c1_witness :
    resolveCardName
      { siblingText := none, polls := [none, some ""], finalRead := none
        directRead := none, valueRead := none, rows := some [], fails := false }
      "Jack" 3 = "Card_3" ∧
    resolveCardName c1Thumb "Jack" 2 = "Jack" :=
  ⟨c1_theorem.1 _ "Jack" 3 (by decide) (by decide) (by decide) (by decide),
   c1_theorem.2 c1Thumb "Jack" 2 (by decide) (by decide) (by decide) (by decide)⟩

/-- C2 counterexample: the amount text `abc` is malformed, and the parse does
not fall back to 0.0 — `float` raises and the row parse yields no value. -/
theorem c2_counterexample :
    parseAmount "abc" = none ∧ ¬ parseAmount "abc" = some 0 := by
  decide

/-- C2 amended: amount parsing strips the currency symbol, thousands
separators and sign markers and negates the parsed magnitude when a literal
`-` appears in the original text (`-$22.26` yields -22.26, `$20.50` yields
20.50); when the cleaned text is empty the parse falls back to 0.0, but a
nonempty non-numeric cleaned text raises in `float`, which the per-row
handler turns into a dropped row rather than a 0.0 amount. -/
theorem c2_theorem :
    parseAmount "-$22.26" = some (-22.26 : ℚ) ∧
    parseAmount "$20.50" = some (20.50 : ℚ) ∧
    (∀ s q, pyFloat? (cleanAmount s) = some q →
      parseAmount s = some (if containsChar '-' s then -q else q)) ∧
    (∀ s, cleanAmount s = "" → parseAmount s = some 0) ∧
    (∀ s, cleanAmount s ≠ "" → pyFloat? (cleanAmount s) = none → parseAmount s = none) ∧
    (∀ (nm : Option String) (now : Int) (r : Row) (a : String), amountEl r = some a →
      parseAmount (pyStrip a) = none → parseRow nm now r = none) := by
  refine ⟨?_, ?_, ?_, ?_, ?_, ?_⟩
  · have h : parseAmount "-$22.26" = some (mkRat (-2226) 100) := by decide
    rw [h, Rat.mkRat_eq_div]
    norm_num
  · have h : parseAmount "$20.50" = some (mkRat 2050 100) := by decide
    rw [h, Rat.mkRat_eq_div]
    norm_num
  · intro s q h
    unfold parseAmount
    have hne : cleanAmount s ≠ "" := by
      intro he
      rw [he] at h
      simp [pyFloat?, pyStrip, trimChars, pyFloatCore, splitCharList] at h
    simp [hne, h]
  · intro s h
    unfold parseAmount
    simp [h]
  · intro s hne h
    unfold parseAmount
    simp [hne, h]
  · intro nm now r a ha hp
    unfold parseRow
    rw [ha]
    cases r.timeEl <;> cases r.fromEl <;> cases r.toEl <;> simp [hp]

/-- C2 witness: concrete applications of the three conditional parts. -/
theorem c2_witness :
    parseAmount "1,234.50" = some (mkRat 123450 100) ∧
    parseAmount "$" = some 0 ∧
    parseAmount "xyz" = none ∧
    parseRow none 0
      { timeEl := some "09:15", fromEl := some "A", toEl := some "B"
        amountSpan := some "xyz", amountPlain := none, icon := none } = none := by
  refine ⟨?_, ?_, ?_, ?_⟩
  · have h := c2_theorem.2.2.1 "1,234.50" (mkRat 123450 100) (by decide)
    rw [h]
    decide
  · exact c2_theorem.2.2.2.1 "$" (by decide)
  · exact c2_theorem.2.2.2.2.1 "xyz" (by decide) (by decide)
  · exact c2_theorem.2.2.2.2.2 none 0 _ "xyz" (by decide) (by decide)

/-- C3 counterexample: `rail-icon` contains none of the claim's substrings
(in particular not `light-rail`), so under the claim it would classify as
`Unknown`; the code classifies it as `Light Rail` because its last check
accepts `light` or `rail` separately. -/
theorem c3_counterexample :
    classifyTripType (some "rail-icon") = "Light Rail" ∧
    substrOf "light-rail" (lowerStr "rail-icon") = false ∧
    classifyTripTypeClaim (some "rail-icon") = "Unknown" := by
  decide

/-- C3 amended: trip-type classification lower-cases the icon attribute and
matches the substrings train/metro/bus/ferry in that fixed order with first
match winning, then classifies as `Light Rail` when either `light` or `rail`
occurs, defaulting to `Unknown`; `train-icon` gives `Train`, `unknown-icon`
gives `Unknown`, and an absent icon gives `Unknown`. -/
theorem c3_theorem :
    (∀ icon, classifyTripType icon = classifyTripTypeAmended icon) ∧
    classifyTripType (some "train-icon") = "Train" ∧
    classifyTripType (some "unknown-icon") = "Unknown" ∧
    classifyTripType none = "Unknown" := by
  refine ⟨?_, by decide, by decide, by decide⟩
  intro icon
  unfold classifyTripType classifyTripTypeAmended tripPatterns
  simp only [List.find?]
  by_cases h1 : substrOf "train" (lowerStr (icon.getD "")) <;>
    by_cases h2 : substrOf "metro" (lowerStr (icon.getD "")) <;>
      by_cases h3 : substrOf "bus" (lowerStr (icon.getD "")) <;>
        by_cases h4 : substrOf "ferry" (lowerStr (icon.getD "")) <;>
          simp [h1, h2, h3, h4]

/-- C4: with exactly one captured balance the balance file is the flat
single-card object carrying that entry's fields; with two or more captured
balances it is the `cards` object whose sequence is exactly the captured
list, so its length matches the number of captured balances. -/
theorem c4_theorem :
    (∀ (e : BalanceEntry) (now : Int),
      makeBalanceJson [e] now = BalanceJson.flat (some e.balance) "AUD" e.card_id now) ∧
    (∀ (l : List BalanceEntry) (now : Int), 2 ≤ l.length →
      ∃ cs, makeBalanceJson l now = BalanceJson.multi cs now ∧ cs.length = l.length) := by
  constructor
  · intro e now
    simp [makeBalanceJson]
  · intro l now hl
    refine ⟨l, ?_, rfl⟩
    unfold makeBalanceJson
    rw [if_neg (by omega)]

/-- C4 witness: the two-balance output is the `cards` object of length 2. -/
theorem c4_witness :
    ∃ cs, makeBalanceJson
        [{ card_id := some "A", balance := 1, currency := "AUD" },
         { card_id := some "B", balance := 2, currency := "AUD" }] 0 =
      BalanceJson.multi cs 0 ∧ cs.length = 2 :=
  c4_theorem.2 _ 0 (by decide)

/-- C5: for every run that gets past login, the transactions written are the
gathered list, whose length is the sum over all visited cards of the rows
that parsed successfully; and a row missing any of time, from, to or amount
is dropped by the row parser. -/
theorem c5_theorem :
    ∀ (env : ScrapeEnv) (now : Int),
      env.loginFormPresent = true → env.cardSelectorAppears = true →
      (scrape_opal env now).transactionsFile = some (gather env now).1 ∧
      (gather env now).1.length = expectedParsedCount env ∧
      (∀ (nm : Option String) (nw : Int) (r : Row),
        r.timeEl = none ∨ r.fromEl = none ∨ r.toEl = none ∨ amountEl r = none →
        parseRow nm nw r = none) := by
  intro env now h1 h2
  refine ⟨by simp [scrape_opal, h1, h2], ?_, ?_⟩
  · rcases henv : env.thumbs with _ | ⟨c, rest⟩
    · simp [gather, expectedParsedCount, henv, soloScan, aux_extract_length]
    · simp [gather, expectedParsedCount, henv, aux_multiScan_length]
  · intro nm nw r hmiss
    cases ht : r.timeEl <;> cases hf : r.fromEl <;> cases hto : r.toEl <;>
      cases ha : amountEl r <;> simp [parseRow, ht, hf, hto, ha] <;>
        rcases hmiss with h | h | h | h <;> simp_all

/-- A thumb whose sibling text names the card and whose trip list holds one
well-formed row and one row with a missing time element. -/
def thumbW : CardData :=
  { siblingText := some ("Jack" ++ "\n" ++ "$9.70"), polls := [], finalRead := none
    directRead := none, valueRead := none
    rows := some [rowW,
      { timeEl := none, fromEl := some "A", toEl := some "B"
        amountSpan := none, amountPlain := some "$1.00", icon := none }]
    fails := false }

/-- A post-login environment with the single thumb `thumbW`. -/
def envW : ScrapeEnv :=
  { loginFormPresent := true, cardSelectorAppears := true, stillLoginVisible := false
    loginErrorMsg := none, thumbs := [thumbW]
    solo := { nameRead := none, valueRead := none, rows := none } }

/-- C5 witness: on `envW` the written transactions have length 1 — the
malformed second row is dropped. -/
theorem c5_witness :
    (scrape_opal envW 0).transactionsFile = some (gather envW 0).1 ∧
    (gather envW 0).1.length = expectedParsedCount envW ∧
    expectedParsedCount envW = 1 := by
  obtain ⟨ha, hb, -⟩ := c5_theorem envW 0 rfl rfl
  exact ⟨ha, hb, by decide⟩

/-- C6: `to_utc_and_local` interprets `09:15` as today's wall clock at fixed
offset UTC+11: the local and UTC datetimes share one instant, their
wall-clock readings differ by exactly 11 hours (the UTC reading shows
22:15, i.e. the local 09:15 minus the offset, modulo a day), the local date
is the current Sydney date; and whenever the `HH:MM` parse fails, both
fields fall back to the current instant. -/
theorem c6_theorem :
    (∀ now : Int,
      (toUtcAndLocalDT "09:15" now).1.offset = 660 ∧
      (toUtcAndLocalDT "09:15" now).2.offset = 0 ∧
      (toUtcAndLocalDT "09:15" now).1.instant = (toUtcAndLocalDT "09:15" now).2.instant ∧
      (toUtcAndLocalDT "09:15" now).1.wall - (toUtcAndLocalDT "09:15" now).2.wall = 660 ∧
      (toUtcAndLocalDT "09:15" now).1.hour = 9 ∧
      (toUtcAndLocalDT "09:15" now).1.minute = 15 ∧
      (toUtcAndLocalDT "09:15" now).2.hour = 22 ∧
      (toUtcAndLocalDT "09:15" now).2.minute = 15 ∧
      (toUtcAndLocalDT "09:15" now).1.day = AwareDT.day { instant := now, offset := 660 }) ∧
    (∀ (s : String) (now : Int), timeParse? s = none →
      toUtcAndLocalDT s now =
        ({ instant := now, offset := 0 }, { instant := now, offset := 0 })) := by
  constructor
  · intro now
    have hp : timeParse? "09:15" = some (9, 15) := by decide
    refine ⟨?_, ?_, ?_, ?_, ?_, ?_, ?_, ?_, ?_⟩ <;>
      simp only [toUtcAndLocalDT, hp, AwareDT.replaceTime, AwareDT.wall, AwareDT.hour,
        AwareDT.minute, AwareDT.day] <;> omega
  · intro s now h
    simp [toUtcAndLocalDT, h]

/-- C6 witness: a malformed time text falls back to the current instant in
both fields. -/
theorem c6_witness :
    toUtcAndLocalDT "oops" 5 =
      ({ instant := 5, offset := 0 }, { instant := 5, offset := 0 }) :=
  c6_theorem.2 "oops" 5 (by decide)

/-- C7: when the login form is absent, or the post-login card selector never
appears and credential rejection is detected (the login form is still
visible or an error element is shown), the run writes neither output file,
closes the browser, and logs the failure. -/
theorem c7_theorem :
    ∀ (env : ScrapeEnv) (now : Int),
      env.loginFormPresent = false ∨
        (env.cardSelectorAppears = false ∧
          (env.stillLoginVisible = true ∨ isTruthy env.loginErrorMsg = true)) →
      (scrape_opal env now).transactionsFile = none ∧
      (scrape_opal env now).balanceFile = none ∧
      (scrape_opal env now).browserClosed = true ∧
      ("Login form not found." ∈ (scrape_opal env now).logs ∨
        ∃ m, "Login failed. " ++ m ∈ (scrape_opal env now).logs) := by
  intro env now h
  rcases h with h | ⟨h1, h2⟩
  · refine ⟨by simp [scrape_opal, h], by simp [scrape_opal, h],
      by simp [scrape_opal, h], Or.inl ?_⟩
    simp [scrape_opal, h]
  · have hcond : (env.stillLoginVisible || isTruthy env.loginErrorMsg) = true := by
      rcases h2 with h2 | h2 <;> simp [h2]
    by_cases hf : env.loginFormPresent
    · refine ⟨by simp [scrape_opal, hf, h1, hcond], by simp [scrape_opal, hf, h1, hcond],
        by simp [scrape_opal, hf, h1, hcond],
        Or.inr ⟨if isTruthy env.loginErrorMsg then env.loginErrorMsg.getD ""
          else "Please check your username or password.", ?_⟩⟩
      simp [scrape_opal, hf, h1, hcond]
    · refine ⟨by simp [scrape_opal, hf], by simp [scrape_opal, hf],
        by simp [scrape_opal, hf], Or.inl ?_⟩
      simp [scrape_opal, hf]

/-- An environment whose login form never appears. -/
def envF : ScrapeEnv :=
  { loginFormPresent := false, cardSelectorAppears := false, stillLoginVisible := false
    loginErrorMsg := none, thumbs := []
    solo := { nameRead := none, valueRead := none, rows := none } }

/-- C7 witness: with the login form absent, no file is written, the browser
is closed and the failure is logged. -/
theorem c7_witness :
    (scrape_opal envF 0).transactionsFile = none ∧
    (scrape_opal envF 0).balanceFile = none ∧
    (scrape_opal envF 0).browserClosed = true ∧
    "Login form not found." ∈ (scrape_opal envF 0).logs := by
  obtain ⟨ha, hb, hc, -⟩ := c7_theorem envF 0 (Or.inl rfl)
  exact ⟨ha, hb, hc, by decide⟩

/-- C8: a demo-flag run performs no network interaction and writes exactly
the two fixed trip records to transactions.json and the two fixed card
entries to balance.json. -/
theorem c8_theorem :
    ∀ (env : ScrapeEnv) (now : Int),
      (main true env now).networkUsed = false ∧
      (main true env now).transactionsFile = some demoTransactions ∧
      demoTransactions.length = 2 ∧
      (main true env now).balanceFile = some (BalanceJson.multi demoBalances now) ∧
      demoBalances.length = 2 := by
  intro env now
  exact ⟨rfl, rfl, rfl, rfl, rfl⟩

/-- C9: a non-demo run that gets past login but captures zero balances still
writes balance.json, as the flat single-card object with null balance and
card id, currency AUD and the current timestamp. -/
theorem c9_theorem :
    ∀ (env : ScrapeEnv) (now : Int),
      env.loginFormPresent = true → env.cardSelectorAppears = true →
      (gather env now).2 = [] →
      (scrape_opal env now).balanceFile = some (BalanceJson.flat none "AUD" none now) := by
  intro env now h1 h2 hb
  simp [scrape_opal, h1, h2, hb, makeBalanceJson]

/-- C9 witness: a post-login run with no thumbs and no readable balance
writes the null flat object. -/
theorem c9_witness :
    (scrape_opal
      { loginFormPresent := true, cardSelectorAppears := true, stillLoginVisible := false
        loginErrorMsg := none, thumbs := []
        solo := { nameRead := none, valueRead := none, rows := none } } 7).balanceFile =
      some (BalanceJson.flat none "AUD" none 7) :=
  c9_theorem _ 7 rfl rfl (by decide)

/-- C10: every trip record produced by extraction has currency exactly `AUD`
and description exactly `tap_on_location → tap_off_location (trip_type)`
built from that same record's fields. -/
theorem c10_theorem :
    ∀ (nm : Option String) (now : Int) (rows : Option (List Row)) (t : TripRecord),
      t ∈ extract_trip_items nm now rows →
      t.currency = "AUD" ∧
      t.description = t.tap_on_location ++ " → " ++ t.tap_off_location ++
        " (" ++ t.trip_type ++ ")" := by
  intro nm now rows t ht
  cases rows with
  | none => simp [extract_trip_items] at ht
  | some rs =>
    simp only [extract_trip_items] at ht
    rcases List.mem_filterMap.mp ht with ⟨r, -, hr⟩
    unfold parseRow at hr
    split at hr
    · simp only [] at hr
      split at hr
      · exact absurd hr (by simp)
      · injection hr with h
        subst h
        exact ⟨rfl, rfl⟩
    · exact absurd hr (by simp)

/-- C10 witness: the record extracted from `rowW` satisfies both field
invariants. -/
theorem c10_witness :
    tripW ∈ extract_trip_items (some "X") 0 (some [rowW]) ∧
    tripW.currency = "AUD" ∧
    tripW.description = tripW.tap_on_location ++ " → " ++ tripW.tap_off_location ++
      " (" ++ tripW.trip_type ++ ")" := by
  have hm : tripW ∈ extract_trip_items (some "X") 0 (some [rowW]) := by decide
  exact ⟨hm, c10_theorem (some "X") 0 (some [rowW]) tripW hm⟩

end Opal
